import Mathlib

/-!
# Petrock: the window controller of `src/petrock-window.c`

A shallow embedding of the pet-rock window: its two `guint` counters, the two
labels, the picture widget, the click and size-allocate handlers, and the
procedural rock drawing as the trace of cairo calls it issues.

Conventions of the embedding.

* `guint` and `int` values are `Nat` and `Int`; the two places where a `guint`
  is incremented reduce modulo `2 ^ 32` explicitly.
* `double` values are exact rationals (`ℚ`): every decimal literal of the source
  is the rational it denotes and arithmetic is exact.
* A `cairo_t` is represented by the sequence of calls made on it; a texture is
  its dimensions together with that sequence.
* `_()` and `N_()` are gettext markers. No message catalogue is part of the
  sources, so a lookup returns its argument.
-/

namespace Petrock

/-! ## GLib helpers used by the source -/

/-- Range of a `guint`: values are `0 .. G_MAXUINT`, arithmetic wraps at `2 ^ 32`. -/
def GUINT_RANGE : Nat := 4294967296

/-- GLib `MAX (a, b)`, i.e. `((a) > (b)) ? (a) : (b)`. -/
def MAX {α : Type} [LT α] [DecidableRel (fun (a b : α) => a < b)] (a b : α) : α :=
  if a > b then a else b

/-- GLib `CLAMP (x, low, high)`, i.e.
`((x) > (high)) ? (high) : (((x) < (low)) ? (low) : (x))`. -/
def CLAMP {α : Type} [LT α] [DecidableRel (fun (a b : α) => a < b)] (x low high : α) : α :=
  if x > high then high else if x < low then low else x

/-- GLib `G_PI`, a decimal literal in `gtypes.h`. -/
def G_PI : ℚ := 3.1415926535897932384626433832795028841971693993751

/-- The gettext lookup `_()` with no catalogue installed: the message itself. -/
def gettext (msgid : String) : String := msgid

/-- The `%u` conversion of `printf`: the decimal digits of an unsigned value. -/
def format_u (n : Nat) : String := Nat.repr n

/-! ## Data model -/

/-- The calls `petrock_window_draw_rock` makes on cairo, with their arguments.
Pattern calls carry no handle: at most one pattern is alive at a time and
`set_source` installs the pattern created last. -/
inductive CairoOp where
  | pattern_create_linear (x0 y0 x1 y1 : ℚ)
  | pattern_create_radial (cx0 cy0 radius0 cx1 cy1 radius1 : ℚ)
  | pattern_add_color_stop_rgb (offset red green blue : ℚ)
  | pattern_add_color_stop_rgba (offset red green blue alpha : ℚ)
  | pattern_destroy
  | set_source
  | set_source_rgba (red green blue alpha : ℚ)
  | paint
  | save
  | restore
  | translate (tx ty : ℚ)
  | scale (sx sy : ℚ)
  | rotate (angle : ℚ)
  | arc (xc yc radius angle1 angle2 : ℚ)
  | move_to (x y : ℚ)
  | line_to (x y : ℚ)
  | curve_to (x1 y1 x2 y2 x3 y3 : ℚ)
  | close_path
  | fill
  | fill_preserve
  | stroke
  | set_line_width (width : ℚ)
  deriving DecidableEq, Repr

/-- A `GdkTexture` built by `petrock_window_create_rock_texture`: its size and
the drawing that produced its pixels. -/
structure GdkTexture where
  width : Int
  height : Int
  drawing : List CairoOp
  deriving DecidableEq, Repr

/-- The `GtkPicture` behind `rock_picture`: the size the toolkit gave it
(`gtk_widget_get_width`, `gtk_widget_get_height`) and its current paintable. -/
structure GtkPicture where
  width : Int
  height : Int
  paintable : Option GdkTexture
  deriving DecidableEq, Repr

/-- The `struct _PetrockWindow`. A `GtkLabel` is the text it shows; the button
carries no state the handlers read. -/
structure PetrockWindow where
  rock_picture : GtkPicture
  compliment_label : String
  fact_label : String
  compliment_count : Nat
  fact_index : Nat
  deriving DecidableEq, Repr

/-- The table `rock_facts`. -/
def rock_facts : List String := [
  "Fun fact: Pet rocks were the original low-maintenance companions.",
  "Fun fact: This rock's favorite hobby is sedimentary contemplation.",
  "Fun fact: A pet rock never rolls away unless you help it.",
  "Fun fact: Rocks make great listeners; sediment keeps secrets.",
  "Fun fact: Pebbles appreciate compliments even if they do not show it."
]

/-- The `G_N_ELEMENTS (rock_facts)` of the source. -/
def N_ROCK_FACTS : Nat := rock_facts.length

/-! ## Labels -/

/-- The `petrock_window_update_counter_label` of the source. -/
def petrock_window_update_counter_label (self : PetrockWindow) : PetrockWindow :=
  let label := "Compliments received: " ++ format_u self.compliment_count
  { self with compliment_label := label }

/-- The `petrock_window_show_fact` of the source. The index is reduced modulo the
table length before the lookup, so the default of `getD` is never returned. -/
def petrock_window_show_fact (self : PetrockWindow) (index : Nat) : PetrockWindow :=
  if N_ROCK_FACTS = 0 then self
  else
    let self1 := { self with fact_index := index % N_ROCK_FACTS }
    { self1 with fact_label := gettext (rock_facts.getD self1.fact_index "") }

/-- The `petrock_window_advance_fact` of the source; `fact_index + 1` is `guint`
arithmetic. -/
def petrock_window_advance_fact (self : PetrockWindow) : PetrockWindow :=
  if N_ROCK_FACTS = 0 then self
  else petrock_window_show_fact self ((self.fact_index + 1) % GUINT_RANGE)

/-! ## Mood -/

/-- The `petrock_window_get_mood_ratio` of the source. -/
def petrock_window_get_mood_ratio (self : PetrockWindow) : ℚ :=
  if self.compliment_count = 0 then 0.0
  else
    let ratio : ℚ := (self.compliment_count : ℚ) / 12.0
    CLAMP ratio 0.0 1.0

/-! ## Drawing -/

/-- The `petrock_window_draw_rock` of the source: the calls it makes on `cr`, in
order. -/
def petrock_window_draw_rock (width height : Int) (mood_ratio : ℚ) : List CairoOp :=
  let padding : ℚ := 24.0
  let rock_width : ℚ := MAX ((width : ℚ) - padding * 2.0) 20.0
  let rock_height : ℚ := MAX ((height : ℚ) * 0.45) 20.0
  let rock_center_x : ℚ := (width : ℚ) / 2.0
  let rock_center_y : ℚ := (height : ℚ) * 0.55
  let shadow_width : ℚ := rock_width * 0.8
  let shadow_height : ℚ := rock_height * 0.4
  let shadow_center_y : ℚ := (height : ℚ) * 0.78
  let sparkle_radius : ℚ := 6.0
  let base_r : ℚ := 0.45 + 0.2 * mood_ratio
  let base_g : ℚ := 0.44 + 0.15 * mood_ratio
  let base_b : ℚ := 0.48 + 0.1 * mood_ratio
  let glow_strength : ℚ := 0.12 + 0.25 * mood_ratio
  -- Background gradient
  let background : List CairoOp :=
    [ CairoOp.pattern_create_linear 0 0 0 (height : ℚ),
      CairoOp.pattern_add_color_stop_rgb 0.0 0.92 0.95 0.99,
      CairoOp.pattern_add_color_stop_rgb 1.0 (0.94 - 0.1 * mood_ratio) 0.93 0.96,
      CairoOp.set_source,
      CairoOp.paint,
      CairoOp.pattern_destroy ]
  -- Ground shadow
  let shadow : List CairoOp :=
    [ CairoOp.save,
      CairoOp.translate rock_center_x shadow_center_y,
      CairoOp.scale (shadow_width / 2.0) (shadow_height / 2.0),
      CairoOp.arc 0 0 1.0 0 (2 * G_PI),
      CairoOp.set_source_rgba 0.1 0.1 0.1 0.15,
      CairoOp.fill,
      CairoOp.restore ]
  -- Rock body
  let body : List CairoOp :=
    [ CairoOp.save,
      CairoOp.translate rock_center_x rock_center_y,
      CairoOp.scale (rock_width / 2.0) (rock_height / 2.0),
      CairoOp.move_to 0.0 (-1.0),
      CairoOp.curve_to 0.65 (-0.9) 1.0 (-0.2) 0.9 0.5,
      CairoOp.curve_to 0.8 1.0 0.1 1.1 (-0.2) 1.0,
      CairoOp.curve_to (-0.9) 0.9 (-1.1) 0.2 (-0.8) (-0.6),
      CairoOp.curve_to (-0.6) (-1.0) (-0.1) (-1.1) 0.0 (-1.0),
      CairoOp.close_path,
      CairoOp.restore,
      CairoOp.set_source_rgba base_r base_g base_b 1.0,
      CairoOp.fill_preserve,
      CairoOp.set_source_rgba (base_r - 0.17) (base_g - 0.18) (base_b - 0.14) 1.0,
      CairoOp.set_line_width 2.0,
      CairoOp.stroke ]
  -- Glow rim
  let glow : List CairoOp :=
    [ CairoOp.pattern_create_radial (rock_center_x - rock_width * 0.2) (rock_center_y - rock_height * 0.4)
        (rock_width * 0.05) rock_center_x rock_center_y (rock_width * 0.9),
      CairoOp.pattern_add_color_stop_rgba 0.0 1.0 1.0 1.0 glow_strength,
      CairoOp.pattern_add_color_stop_rgba 1.0 1.0 1.0 1.0 0.0,
      CairoOp.set_source,
      CairoOp.save,
      CairoOp.translate rock_center_x rock_center_y,
      CairoOp.scale (rock_width / 2.0) (rock_height / 2.0),
      CairoOp.arc 0 0 1.0 0 (2 * G_PI),
      CairoOp.restore,
      CairoOp.set_line_width 4.0,
      CairoOp.stroke,
      CairoOp.pattern_destroy ]
  -- Facets
  let facets : List CairoOp :=
    [ CairoOp.set_source_rgba (base_r - 0.08) (base_g - 0.08) (base_b - 0.05) 0.6,
      CairoOp.set_line_width 2.0,
      CairoOp.move_to (rock_center_x - rock_width * 0.35) (rock_center_y - rock_height * 0.1),
      CairoOp.line_to (rock_center_x - rock_width * 0.2) (rock_center_y - rock_height * 0.3),
      CairoOp.line_to rock_center_x (rock_center_y - rock_height * 0.2),
      CairoOp.move_to (rock_center_x + rock_width * 0.3) (rock_center_y - rock_height * 0.05),
      CairoOp.line_to (rock_center_x + rock_width * 0.15) (rock_center_y + rock_height * 0.15),
      CairoOp.line_to (rock_center_x - rock_width * 0.05) (rock_center_y + rock_height * 0.08),
      CairoOp.stroke ]
  -- Highlight streak
  let highlight : List CairoOp :=
    [ CairoOp.save,
      CairoOp.translate (rock_center_x - rock_width * 0.18) (rock_center_y - rock_height * 0.2),
      CairoOp.scale (rock_width * 0.12) (rock_height * 0.22),
      CairoOp.arc 0 0 1.0 (-G_PI / 4) (G_PI / 2),
      CairoOp.set_source_rgba 1.0 1.0 1.0 (0.2 + 0.2 * mood_ratio),
      CairoOp.set_line_width 3.0,
      CairoOp.stroke,
      CairoOp.restore ]
  -- Sparkle buddy
  let sparkle : List CairoOp :=
    [ CairoOp.save,
      CairoOp.translate (rock_center_x + rock_width * 0.35) (rock_center_y - rock_height * 0.55),
      CairoOp.rotate (G_PI / 6),
      CairoOp.move_to 0 (-sparkle_radius),
      CairoOp.line_to 0 sparkle_radius,
      CairoOp.move_to (-sparkle_radius) 0,
      CairoOp.line_to sparkle_radius 0,
      CairoOp.move_to (-sparkle_radius * 0.7) (-sparkle_radius * 0.7),
      CairoOp.line_to (sparkle_radius * 0.7) (sparkle_radius * 0.7),
      CairoOp.move_to (sparkle_radius * 0.7) (-sparkle_radius * 0.7),
      CairoOp.line_to (-sparkle_radius * 0.7) (sparkle_radius * 0.7),
      CairoOp.set_source_rgba 1.0 0.95 0.75 (0.6 + 0.3 * mood_ratio),
      CairoOp.set_line_width 1.6,
      CairoOp.stroke,
      CairoOp.restore ]
  -- Pet tag pebble
  let pebble : List CairoOp :=
    [ CairoOp.save,
      CairoOp.arc (rock_center_x + rock_width * 0.25) (rock_center_y + rock_height * 0.45)
        (rock_width * 0.08) 0 (2 * G_PI),
      CairoOp.set_source_rgba 0.9 0.78 0.32 0.9,
      CairoOp.fill,
      CairoOp.set_source_rgba 0.6 0.4 0.1 1.0,
      CairoOp.set_line_width 1.2,
      CairoOp.arc (rock_center_x + rock_width * 0.25) (rock_center_y + rock_height * 0.45)
        (rock_width * 0.08) 0 (2 * G_PI),
      CairoOp.stroke,
      CairoOp.restore ]
  background ++ shadow ++ body ++ glow ++ facets ++ highlight ++ sparkle ++ pebble

/-- The `petrock_window_create_rock_texture` of the source: a fresh
`width × height` surface, the rock drawn on it, and the pixels handed to a
texture of the same size. -/
def petrock_window_create_rock_texture (width height : Int) (mood_ratio : ℚ) : GdkTexture :=
  { width := width, height := height,
    drawing := petrock_window_draw_rock width height mood_ratio }

/-- The values of `target_width` and `target_height` at the call of
`petrock_window_create_rock_texture` in `petrock_window_update_paintable`. -/
def petrock_window_update_paintable_target (self : PetrockWindow) (width height : Int) :
    Int × Int :=
  let target_width := width
  let target_height := height
  let target_width := if target_width ≤ 0 then MAX self.rock_picture.width 220 else target_width
  let target_height := if target_height ≤ 0 then MAX self.rock_picture.height 220 else target_height
  let target_width := MAX target_width 220
  let target_height := MAX target_height 220
  (target_width, target_height)

/-- The `petrock_window_update_paintable` of the source. -/
def petrock_window_update_paintable (self : PetrockWindow) (width height : Int) : PetrockWindow :=
  let target := petrock_window_update_paintable_target self width height
  let mood_ratio := petrock_window_get_mood_ratio self
  let texture := petrock_window_create_rock_texture target.1 target.2 mood_ratio
  { self with rock_picture := { self.rock_picture with paintable := some texture } }

/-! ## Event handlers and construction -/

/-- The `petrock_window_on_picture_size_allocate` of the source. -/
def petrock_window_on_picture_size_allocate (self : PetrockWindow) (width height : Int)
    (_baseline : Int) : PetrockWindow :=
  petrock_window_update_paintable self width height

/-- The `petrock_window_on_compliment_clicked` of the source; `compliment_count++`
is `guint` arithmetic. -/
def petrock_window_on_compliment_clicked (self : PetrockWindow) : PetrockWindow :=
  let self1 := { self with compliment_count := (self.compliment_count + 1) % GUINT_RANGE }
  let self2 := petrock_window_update_counter_label self1
  let self3 := petrock_window_advance_fact self2
  petrock_window_update_paintable self3 (-1) (-1)

/-- The `petrock_window_init` of the source, applied to the window as the
template left it. -/
def petrock_window_init (self : PetrockWindow) : PetrockWindow :=
  let self1 := { self with compliment_count := 0 }
  let self2 := { self1 with fact_index := 0 }
  let self3 := petrock_window_update_counter_label self2
  let self4 := petrock_window_show_fact self3 0
  petrock_window_update_paintable self4 (-1) (-1)

/-- The window after `n` activations of the compliment button. -/
def clicks : Nat → PetrockWindow → PetrockWindow
  | 0, self => self
  | n + 1, self => petrock_window_on_compliment_clicked (clicks n self)

/-- What can happen to a window after construction: a click on the button, a
size-allocate signal of the picture, or the toolkit giving the picture a new
size. -/
inductive Event where
  | clicked
  | size_allocate (width height baseline : Int)
  | allocated (width height : Int)
  deriving DecidableEq, Repr

/-- One event applied to the window. -/
def Event.apply (self : PetrockWindow) : Event → PetrockWindow
  | .clicked => petrock_window_on_compliment_clicked self
  | .size_allocate width height baseline =>
      petrock_window_on_picture_size_allocate self width height baseline
  | .allocated width height =>
      { self with rock_picture := { self.rock_picture with width := width, height := height } }

/-- The windows reachable from construction by any sequence of events. -/
inductive Reachable : PetrockWindow → Prop where
  | init (template : PetrockWindow) : Reachable (petrock_window_init template)
  | step {self : PetrockWindow} (e : Event) : Reachable self → Reachable (e.apply self)

/-- A window as a template might leave it before `petrock_window_init` runs. -/
def template0 : PetrockWindow :=
  { rock_picture := { width := 0, height := 0, paintable := none },
    compliment_label := "", fact_label := "", compliment_count := 0, fact_index := 0 }

/-- The colour and alpha components a call hands to cairo. -/
def CairoOp.colours : CairoOp → List ℚ
  | .pattern_add_color_stop_rgb _ red green blue => [red, green, blue]
  | .pattern_add_color_stop_rgba _ red green blue alpha => [red, green, blue, alpha]
  | .set_source_rgba red green blue alpha => [red, green, blue, alpha]
  | _ => []

/-! ## Projections of the handlers -/

theorem N_ROCK_FACTS_eq : N_ROCK_FACTS = 5 := rfl

theorem update_paintable_compliment_count (self : PetrockWindow) (w h : Int) :
    (petrock_window_update_paintable self w h).compliment_count = self.compliment_count := rfl

theorem update_paintable_fact_index (self : PetrockWindow) (w h : Int) :
    (petrock_window_update_paintable self w h).fact_index = self.fact_index := rfl

theorem update_paintable_compliment_label (self : PetrockWindow) (w h : Int) :
    (petrock_window_update_paintable self w h).compliment_label = self.compliment_label := rfl

theorem update_paintable_fact_label (self : PetrockWindow) (w h : Int) :
    (petrock_window_update_paintable self w h).fact_label = self.fact_label := rfl

theorem clicked_compliment_count (self : PetrockWindow) :
    (petrock_window_on_compliment_clicked self).compliment_count
      = (self.compliment_count + 1) % GUINT_RANGE := by
  simp [petrock_window_on_compliment_clicked, petrock_window_update_paintable,
    petrock_window_advance_fact, petrock_window_show_fact, petrock_window_update_counter_label,
    N_ROCK_FACTS_eq]

theorem clicked_compliment_label (self : PetrockWindow) :
    (petrock_window_on_compliment_clicked self).compliment_label
      = "Compliments received: " ++ format_u ((self.compliment_count + 1) % GUINT_RANGE) := by
  simp [petrock_window_on_compliment_clicked, petrock_window_update_paintable,
    petrock_window_advance_fact, petrock_window_show_fact, petrock_window_update_counter_label,
    N_ROCK_FACTS_eq]

theorem clicked_fact_index (self : PetrockWindow) :
    (petrock_window_on_compliment_clicked self).fact_index
      = ((self.fact_index + 1) % GUINT_RANGE) % 5 := by
  simp [petrock_window_on_compliment_clicked, petrock_window_update_paintable,
    petrock_window_advance_fact, petrock_window_show_fact, petrock_window_update_counter_label,
    N_ROCK_FACTS_eq]

theorem clicked_fact_label (self : PetrockWindow) :
    (petrock_window_on_compliment_clicked self).fact_label
      = rock_facts.getD (((self.fact_index + 1) % GUINT_RANGE) % 5) "" := by
  simp [petrock_window_on_compliment_clicked, petrock_window_update_paintable,
    petrock_window_advance_fact, petrock_window_show_fact, petrock_window_update_counter_label,
    N_ROCK_FACTS_eq, gettext]

theorem init_compliment_count (template : PetrockWindow) :
    (petrock_window_init template).compliment_count = 0 := by
  simp [petrock_window_init, petrock_window_update_paintable, petrock_window_show_fact,
    petrock_window_update_counter_label, N_ROCK_FACTS_eq]

theorem init_compliment_label (template : PetrockWindow) :
    (petrock_window_init template).compliment_label = "Compliments received: " ++ format_u 0 := by
  simp [petrock_window_init, petrock_window_update_paintable, petrock_window_show_fact,
    petrock_window_update_counter_label, N_ROCK_FACTS_eq]

theorem init_fact_index (template : PetrockWindow) :
    (petrock_window_init template).fact_index = 0 := by
  simp [petrock_window_init, petrock_window_update_paintable, petrock_window_show_fact,
    petrock_window_update_counter_label, N_ROCK_FACTS_eq]

theorem init_fact_label (template : PetrockWindow) :
    (petrock_window_init template).fact_label = rock_facts.getD 0 "" := by
  simp [petrock_window_init, petrock_window_update_paintable, petrock_window_show_fact,
    petrock_window_update_counter_label, N_ROCK_FACTS_eq, gettext]

/-- An index below five selects an entry of `rock_facts`, the one `getD` returns. -/
theorem rock_facts_lookup (i : Nat) (hi : i < 5) :
    rock_facts[i]? = some (rock_facts.getD i "") := by
  have h : i = 0 ∨ i = 1 ∨ i = 2 ∨ i = 3 ∨ i = 4 := by omega
  rcases h with h | h | h | h | h <;> subst h <;> rfl

/-! ## The counters after `n` clicks -/

theorem clicks_fact_index (template : PetrockWindow) (n : Nat) :
    (clicks n (petrock_window_init template)).fact_index = n % 5 := by
  induction n with
  | zero => simp [clicks, init_fact_index]
  | succ k ih =>
    simp only [clicks, clicked_fact_index, ih, GUINT_RANGE]
    omega

theorem clicks_fact_label (template : PetrockWindow) (n : Nat) :
    (clicks n (petrock_window_init template)).fact_label = rock_facts.getD (n % 5) "" := by
  cases n with
  | zero => simp [clicks, init_fact_label]
  | succ k =>
    simp only [clicks, clicked_fact_label, clicks_fact_index, GUINT_RANGE]
    congr 1
    omega

theorem clicks_compliment_count (template : PetrockWindow) (n : Nat) :
    (clicks n (petrock_window_init template)).compliment_count = n % GUINT_RANGE := by
  induction n with
  | zero => simp [clicks, init_compliment_count]
  | succ k ih =>
    simp only [clicks, clicked_compliment_count, ih, GUINT_RANGE]
    omega

theorem clicks_compliment_label (template : PetrockWindow) (n : Nat) :
    (clicks n (petrock_window_init template)).compliment_label
      = "Compliments received: " ++ format_u (n % GUINT_RANGE) := by
  cases n with
  | zero => simp [clicks, init_compliment_label, GUINT_RANGE]
  | succ k =>
    simp only [clicks, clicked_compliment_label, clicks_compliment_count, GUINT_RANGE]
    congr 2
    omega

/-! ## Fact rotation -/

/-- C1. After `n` clicks from the state `petrock_window_init` sets up, for any
`n` whatsoever, `fact_index` is `n mod 5` and the fact label shows
`rock_facts[n mod 5]`. -/
theorem fact_after_clicks (template : PetrockWindow) (n : Nat) :
    (clicks n (petrock_window_init template)).fact_index = n % 5 ∧
      rock_facts[n % 5]? = some (clicks n (petrock_window_init template)).fact_label := by
  refine ⟨clicks_fact_index template n, ?_⟩
  rw [clicks_fact_label]
  exact rock_facts_lookup _ (Nat.mod_lt _ (by decide))

/-- C1 at seven clicks: the index is 2 and the label shows the third fact. -/
theorem fact_after_clicks_witness :
    (clicks 7 (petrock_window_init template0)).fact_index = 2 ∧
      (clicks 7 (petrock_window_init template0)).fact_label
        = "Fun fact: A pet rock never rolls away unless you help it." :=
  ⟨(fact_after_clicks template0 7).1,
    Option.some.inj ((fact_after_clicks template0 7).2.symm.trans (by decide))⟩

/-! ## The counter label -/

/-- C2, as the code has it. After `n` clicks from the initial state the `guint`
counter holds `n mod 2 ^ 32` and the counter label is `"Compliments received: "`
followed by the decimal digits of that value; for `n` below `2 ^ 32` this is
`n` itself. -/
theorem counter_label_after_clicks (template : PetrockWindow) (n : Nat) :
    (clicks n (petrock_window_init template)).compliment_count = n % 4294967296 ∧
      (clicks n (petrock_window_init template)).compliment_label
        = "Compliments received: " ++ format_u (n % 4294967296) ∧
      (n < 4294967296 →
        (clicks n (petrock_window_init template)).compliment_label
          = "Compliments received: " ++ format_u n) := by
  refine ⟨clicks_compliment_count template n, clicks_compliment_label template n, ?_⟩
  intro hn
  rw [clicks_compliment_label, GUINT_RANGE, Nat.mod_eq_of_lt hn]

/-- C2 at seven clicks: the label reads `"Compliments received: 7"`. -/
theorem counter_label_after_clicks_witness :
    (clicks 7 (petrock_window_init template0)).compliment_count = 7 ∧
      (clicks 7 (petrock_window_init template0)).compliment_label = "Compliments received: 7" := by
  have h := counter_label_after_clicks template0 7
  refine ⟨h.1, ?_⟩
  rw [h.2.2 (by decide)]
  decide

/-- C2 fails as stated: after `2 ^ 32` clicks the counter has wrapped and the label
reads `"Compliments received: 0"`, not `"Compliments received: 4294967296"`. -/
theorem counter_label_wraps :
    (clicks 4294967296 (petrock_window_init template0)).compliment_label
        = "Compliments received: 0" ∧
      (clicks 4294967296 (petrock_window_init template0)).compliment_label
        ≠ "Compliments received: " ++ format_u 4294967296 := by
  have h : (clicks 4294967296 (petrock_window_init template0)).compliment_label
      = "Compliments received: 0" := by
    rw [clicks_compliment_label]
    decide
  refine ⟨h, ?_⟩
  rw [h]
  decide

/-! ## The fact index stays inside the table -/

theorem init_fact_index_lt (template : PetrockWindow) :
    (petrock_window_init template).fact_index < 5 := by
  rw [init_fact_index]
  decide

theorem Event.apply_fact_index_lt (self : PetrockWindow) (e : Event) (h : self.fact_index < 5) :
    (e.apply self).fact_index < 5 := by
  cases e with
  | clicked =>
    show (petrock_window_on_compliment_clicked self).fact_index < 5
    rw [clicked_fact_index]
    exact Nat.mod_lt _ (by decide)
  | size_allocate width height baseline => exact h
  | allocated width height => exact h

theorem reachable_clicks (template : PetrockWindow) (n : Nat) :
    Reachable (clicks n (petrock_window_init template)) := by
  induction n with
  | zero => exact Reachable.init template
  | succ k ih => exact Reachable.step Event.clicked ih

/-- C8. In every window reachable from `petrock_window_init` by clicks, resize
signals and size changes, `fact_index` is below the length of `rock_facts`, the
lookup `rock_facts[fact_index]` hits an entry, and `fact_index + 1` stays inside
the `guint` range; the number of clicks, hence any wrap of `compliment_count`,
plays no part. -/
theorem fact_index_in_bounds (self : PetrockWindow) (h : Reachable self) :
    self.fact_index < rock_facts.length ∧
      rock_facts[self.fact_index]? = some (rock_facts.getD self.fact_index "") ∧
      self.fact_index + 1 < GUINT_RANGE ∧
      (self.fact_index + 1) % GUINT_RANGE = self.fact_index + 1 := by
  have hlt : self.fact_index < 5 := by
    induction h with
    | init template => exact init_fact_index_lt template
    | step e _ ih => exact Event.apply_fact_index_lt _ e ih
  have hr : self.fact_index + 1 < GUINT_RANGE := by
    simp only [GUINT_RANGE]
    omega
  exact ⟨hlt, rock_facts_lookup _ hlt, hr, Nat.mod_eq_of_lt hr⟩

/-- C8 after `2 ^ 32` clicks: `compliment_count` has wrapped to zero and
`fact_index` is still inside the table. -/
theorem fact_index_in_bounds_witness :
    (clicks 4294967296 (petrock_window_init template0)).compliment_count = 0 ∧
      (clicks 4294967296 (petrock_window_init template0)).fact_index < rock_facts.length :=
  ⟨by rw [clicks_compliment_count]; decide,
    (fact_index_in_bounds _ (reachable_clicks template0 4294967296)).1⟩

/-! ## The mood ratio -/

theorem get_mood_ratio_eq_min (self : PetrockWindow) :
    petrock_window_get_mood_ratio self = min ((self.compliment_count : ℚ) / 12) 1 := by
  unfold petrock_window_get_mood_ratio CLAMP
  have hc : (0 : ℚ) ≤ (self.compliment_count : ℚ) := Nat.cast_nonneg _
  by_cases h0 : self.compliment_count = 0
  · simp only [h0, if_true]
    norm_num
  · simp only [h0, if_false, gt_iff_lt]
    norm_num
    have hdiv : (0 : ℚ) ≤ (self.compliment_count : ℚ) / 12 := by positivity
    split_ifs with h1 h2
    · exact (min_eq_right (le_of_lt h1)).symm
    · exact absurd h2 (not_lt.mpr hdiv)
    · exact (min_eq_left (not_lt.mp h1)).symm

theorem get_mood_ratio_nonneg (self : PetrockWindow) :
    0 ≤ petrock_window_get_mood_ratio self := by
  rw [get_mood_ratio_eq_min]
  have hc : (0 : ℚ) ≤ (self.compliment_count : ℚ) := Nat.cast_nonneg _
  exact le_min (by positivity) (by norm_num)

theorem get_mood_ratio_le_one (self : PetrockWindow) :
    petrock_window_get_mood_ratio self ≤ 1 := by
  rw [get_mood_ratio_eq_min]
  exact min_le_right _ _

theorem get_mood_ratio_mono (a b : PetrockWindow)
    (hab : a.compliment_count ≤ b.compliment_count) :
    petrock_window_get_mood_ratio a ≤ petrock_window_get_mood_ratio b := by
  rw [get_mood_ratio_eq_min, get_mood_ratio_eq_min]
  have h : (a.compliment_count : ℚ) ≤ (b.compliment_count : ℚ) := by exact_mod_cast hab
  exact min_le_min (by linarith) le_rfl

theorem get_mood_ratio_saturated (self : PetrockWindow) (h : 12 ≤ self.compliment_count) :
    petrock_window_get_mood_ratio self = 1 := by
  rw [get_mood_ratio_eq_min]
  have hc : (12 : ℚ) ≤ (self.compliment_count : ℚ) := by exact_mod_cast h
  exact min_eq_right (by linarith)

/-- C3. Whatever `compliment_count` is, zero included,
`petrock_window_get_mood_ratio` returns `min (compliment_count / 12) 1` in exact
arithmetic, a value between 0 and 1. -/
theorem mood_ratio_is_clamped_twelfth (self : PetrockWindow) :
    petrock_window_get_mood_ratio self = min ((self.compliment_count : ℚ) / 12) 1 ∧
      0 ≤ petrock_window_get_mood_ratio self ∧ petrock_window_get_mood_ratio self ≤ 1 :=
  ⟨get_mood_ratio_eq_min self, get_mood_ratio_nonneg self, get_mood_ratio_le_one self⟩

/-- C4. The mood ratio never decreases as `compliment_count` grows and is exactly 1
from twelve compliments on; a click at count 11 gives count 12 and ratio 1, and
the next click gives count 13 with the ratio still 1. -/
theorem mood_ratio_monotone_saturating :
    (∀ a b : PetrockWindow, a.compliment_count ≤ b.compliment_count →
        petrock_window_get_mood_ratio a ≤ petrock_window_get_mood_ratio b) ∧
      (∀ self : PetrockWindow, 12 ≤ self.compliment_count →
        petrock_window_get_mood_ratio self = 1) ∧
      (∀ self : PetrockWindow, self.compliment_count = 11 →
        (petrock_window_on_compliment_clicked self).compliment_count = 12 ∧
        petrock_window_get_mood_ratio (petrock_window_on_compliment_clicked self) = 1 ∧
        (petrock_window_on_compliment_clicked
          (petrock_window_on_compliment_clicked self)).compliment_count = 13 ∧
        petrock_window_get_mood_ratio
          (petrock_window_on_compliment_clicked (petrock_window_on_compliment_clicked self))
            = 1) := by
  refine ⟨get_mood_ratio_mono, get_mood_ratio_saturated, ?_⟩
  intro self h11
  have h12 : (petrock_window_on_compliment_clicked self).compliment_count = 12 := by
    rw [clicked_compliment_count, h11]
    decide
  have h13 : (petrock_window_on_compliment_clicked
      (petrock_window_on_compliment_clicked self)).compliment_count = 13 := by
    rw [clicked_compliment_count, h12]
    decide
  exact ⟨h12, get_mood_ratio_saturated _ (by omega), h13, get_mood_ratio_saturated _ (by omega)⟩

/-- C4 on the window reached by eleven clicks: the ratio is at most 1 there and is
1 after the twelfth and the thirteenth click. -/
theorem mood_ratio_monotone_saturating_witness :
    petrock_window_get_mood_ratio (clicks 11 (petrock_window_init template0))
        ≤ petrock_window_get_mood_ratio (clicks 12 (petrock_window_init template0)) ∧
      petrock_window_get_mood_ratio (clicks 12 (petrock_window_init template0)) = 1 ∧
      petrock_window_get_mood_ratio (clicks 13 (petrock_window_init template0)) = 1 := by
  have h11 : (clicks 11 (petrock_window_init template0)).compliment_count = 11 := by
    rw [clicks_compliment_count]
    decide
  have h12 : (clicks 12 (petrock_window_init template0)).compliment_count = 12 := by
    rw [clicks_compliment_count]
    decide
  have hs := mood_ratio_monotone_saturating.2.2 _ h11
  exact ⟨mood_ratio_monotone_saturating.1 _ _ (by rw [h11, h12]; decide), hs.2.1, hs.2.2.2⟩

/-! ## Render size -/

theorem MAX_int_eq_max (a b : Int) : MAX a b = max a b := by
  unfold MAX
  split_ifs with h
  · exact (max_eq_left (le_of_lt h)).symm
  · exact (max_eq_right (not_lt.mp h)).symm

theorem update_paintable_target_fst (self : PetrockWindow) (width height : Int) :
    (petrock_window_update_paintable_target self width height).1
      = if 0 < width then max width 220 else max self.rock_picture.width 220 := by
  simp only [petrock_window_update_paintable_target, MAX_int_eq_max]
  by_cases hw : 0 < width
  · rw [if_neg (not_le.mpr hw), if_pos hw]
  · rw [if_pos (not_lt.mp hw), if_neg hw, max_assoc, max_self]

theorem update_paintable_target_snd (self : PetrockWindow) (width height : Int) :
    (petrock_window_update_paintable_target self width height).2
      = if 0 < height then max height 220 else max self.rock_picture.height 220 := by
  simp only [petrock_window_update_paintable_target, MAX_int_eq_max]
  by_cases hh : 0 < height
  · rw [if_neg (not_le.mpr hh), if_pos hh]
  · rw [if_pos (not_lt.mp hh), if_neg hh, max_assoc, max_self]

theorem update_paintable_target_ge (self : PetrockWindow) (width height : Int) :
    220 ≤ (petrock_window_update_paintable_target self width height).1 ∧
      220 ≤ (petrock_window_update_paintable_target self width height).2 := by
  rw [update_paintable_target_fst, update_paintable_target_snd]
  constructor <;> split_ifs <;> exact le_max_right _ _

/-- C5. For all size hints and every current size of the picture,
`petrock_window_update_paintable` hands `petrock_window_create_rock_texture` a
width and a height that are each at least 220: `max hint 220` for a positive hint
and `max (current size) 220` otherwise. A texture of exactly that size is
installed for every input. -/
theorem update_paintable_size (self : PetrockWindow) (width height : Int) :
    (petrock_window_update_paintable self width height).rock_picture.paintable
        = some (petrock_window_create_rock_texture
            (petrock_window_update_paintable_target self width height).1
            (petrock_window_update_paintable_target self width height).2
            (petrock_window_get_mood_ratio self)) ∧
      220 ≤ (petrock_window_update_paintable_target self width height).1 ∧
      220 ≤ (petrock_window_update_paintable_target self width height).2 ∧
      (petrock_window_update_paintable_target self width height).1
        = (if 0 < width then max width 220 else max self.rock_picture.width 220) ∧
      (petrock_window_update_paintable_target self width height).2
        = (if 0 < height then max height 220 else max self.rock_picture.height 220) ∧
      (petrock_window_create_rock_texture
          (petrock_window_update_paintable_target self width height).1
          (petrock_window_update_paintable_target self width height).2
          (petrock_window_get_mood_ratio self)).width
        = (petrock_window_update_paintable_target self width height).1 ∧
      (petrock_window_create_rock_texture
          (petrock_window_update_paintable_target self width height).1
          (petrock_window_update_paintable_target self width height).2
          (petrock_window_get_mood_ratio self)).height
        = (petrock_window_update_paintable_target self width height).2 :=
  ⟨rfl, (update_paintable_target_ge self width height).1,
    (update_paintable_target_ge self width height).2,
    update_paintable_target_fst self width height,
    update_paintable_target_snd self width height, rfl, rfl⟩

/-! ## Resizing -/

/-- C6. The size-allocate handler leaves `compliment_count`, `fact_index`, both
label texts and the size of the picture as they were, for every window and every
`(width, height, baseline)`, and the texture it installs is drawn with the mood
ratio of that unchanged count. -/
theorem size_allocate_keeps_state (self : PetrockWindow) (width height baseline : Int) :
    (petrock_window_on_picture_size_allocate self width height baseline).compliment_count
        = self.compliment_count ∧
      (petrock_window_on_picture_size_allocate self width height baseline).fact_index
        = self.fact_index ∧
      (petrock_window_on_picture_size_allocate self width height baseline).compliment_label
        = self.compliment_label ∧
      (petrock_window_on_picture_size_allocate self width height baseline).fact_label
        = self.fact_label ∧
      petrock_window_get_mood_ratio
          (petrock_window_on_picture_size_allocate self width height baseline)
        = petrock_window_get_mood_ratio self ∧
      (petrock_window_on_picture_size_allocate self width height baseline).rock_picture
        = { self.rock_picture with
            paintable := some (petrock_window_create_rock_texture
              (petrock_window_update_paintable_target self width height).1
              (petrock_window_update_paintable_target self width height).2
              (petrock_window_get_mood_ratio self)) } :=
  ⟨rfl, rfl, rfl, rfl, rfl, rfl⟩

/-- C7. A second size-allocate signal with the same `(width, height)` and no event
in between leaves the window, its texture included, exactly as the first left it.
The installed texture is the target size together with the calls of
`petrock_window_draw_rock` at that size and mood ratio, so any two windows that
agree on target size and mood ratio get equal textures, whatever else they hold
and whatever was rendered before. -/
theorem size_allocate_idempotent (self : PetrockWindow) (width height baseline baseline2 : Int) :
    petrock_window_on_picture_size_allocate
        (petrock_window_on_picture_size_allocate self width height baseline)
        width height baseline2
      = petrock_window_on_picture_size_allocate self width height baseline ∧
    (petrock_window_on_picture_size_allocate self width height baseline).rock_picture.paintable
      = some
          { width := (petrock_window_update_paintable_target self width height).1,
            height := (petrock_window_update_paintable_target self width height).2,
            drawing := petrock_window_draw_rock
              (petrock_window_update_paintable_target self width height).1
              (petrock_window_update_paintable_target self width height).2
              (petrock_window_get_mood_ratio self) } ∧
    (∀ (other : PetrockWindow) (width2 height2 baseline3 : Int),
      petrock_window_update_paintable_target other width2 height2
          = petrock_window_update_paintable_target self width height →
      petrock_window_get_mood_ratio other = petrock_window_get_mood_ratio self →
      (petrock_window_on_picture_size_allocate other width2 height2 baseline3).rock_picture.paintable
        = (petrock_window_on_picture_size_allocate self width height baseline).rock_picture.paintable) := by
  refine ⟨rfl, rfl, ?_⟩
  intro other width2 height2 baseline3 ht hm
  simp only [petrock_window_on_picture_size_allocate, petrock_window_update_paintable, ht, hm]

/-- C7 on two windows that differ in everything but the count: one fresh from
`petrock_window_init`, the other resized before and given another picture size by
the toolkit; a signal with the same positive size renders the same texture. -/
theorem size_allocate_idempotent_witness :
    (petrock_window_on_picture_size_allocate
        (Event.apply (petrock_window_on_picture_size_allocate
          (petrock_window_init template0) 640 480 0) (Event.allocated 900 700))
        300 400 (-1)).rock_picture.paintable
      = (petrock_window_on_picture_size_allocate
          (petrock_window_init template0) 300 400 (-1)).rock_picture.paintable :=
  (size_allocate_idempotent (petrock_window_init template0) 300 400 (-1) (-1)).2.2
    _ 300 400 (-1) (by decide) rfl

/-! ## Colours of the drawing -/

theorem draw_rock_colours_unit (width height : Int) (m : ℚ) (hm0 : 0 ≤ m) (hm1 : m ≤ 1) :
    ∀ op ∈ petrock_window_draw_rock width height m, ∀ c ∈ op.colours, 0 ≤ c ∧ c ≤ 1 := by
  simp only [petrock_window_draw_rock, List.forall_mem_append, List.forall_mem_cons,
    CairoOp.colours, List.not_mem_nil, false_implies, implies_true, and_true, true_and]
  norm_num
  repeat' apply And.intro
  all_goals linarith

theorem MAX_rock_width (width : Int) (hw : 220 ≤ width) :
    MAX ((width : ℚ) - 24.0 * 2.0) 20.0 = (width : ℚ) - 48 := by
  have h : (220 : ℚ) ≤ (width : ℚ) := by exact_mod_cast hw
  unfold MAX
  rw [if_pos (by norm_num; linarith)]
  norm_num

theorem MAX_rock_height (height : Int) (hh : 220 ≤ height) :
    MAX ((height : ℚ) * 0.45) 20.0 = 0.45 * (height : ℚ) := by
  have h : (220 : ℚ) ≤ (height : ℚ) := by exact_mod_cast hh
  unfold MAX
  rw [if_pos (by norm_num; linarith)]
  ring

/-- C9. The fill colour, the inner glow stop and the highlight alpha that
`petrock_window_draw_rock` hands to cairo are `0.45 + 0.2 m`, `0.44 + 0.15 m`,
`0.48 + 0.1 m`, `0.12 + 0.25 m` and `0.2 + 0.2 m`. With `m` the mood ratio of a
window, none of them decreases when `compliment_count` grows, and from twelve
compliments on the whole drawing is the one for `m = 1`. -/
theorem visual_parameters_affine (width height : Int) (m : ℚ) (a b : PetrockWindow)
    (hab : a.compliment_count ≤ b.compliment_count) :
    (petrock_window_draw_rock width height m)[23]?
        = some (CairoOp.set_source_rgba (0.45 + 0.2 * m) (0.44 + 0.15 * m) (0.48 + 0.1 * m) 1.0) ∧
      (petrock_window_draw_rock width height m)[29]?
        = some (CairoOp.pattern_add_color_stop_rgba 0.0 1.0 1.0 1.0 (0.12 + 0.25 * m)) ∧
      (petrock_window_draw_rock width height m)[53]?
        = some (CairoOp.set_source_rgba 1.0 1.0 1.0 (0.2 + 0.2 * m)) ∧
      (0.45 + 0.2 * petrock_window_get_mood_ratio a
          ≤ 0.45 + 0.2 * petrock_window_get_mood_ratio b ∧
        0.44 + 0.15 * petrock_window_get_mood_ratio a
          ≤ 0.44 + 0.15 * petrock_window_get_mood_ratio b ∧
        0.48 + 0.1 * petrock_window_get_mood_ratio a
          ≤ 0.48 + 0.1 * petrock_window_get_mood_ratio b ∧
        0.12 + 0.25 * petrock_window_get_mood_ratio a
          ≤ 0.12 + 0.25 * petrock_window_get_mood_ratio b ∧
        0.2 + 0.2 * petrock_window_get_mood_ratio a
          ≤ 0.2 + 0.2 * petrock_window_get_mood_ratio b) ∧
      (12 ≤ a.compliment_count →
        petrock_window_draw_rock width height (petrock_window_get_mood_ratio a)
            = petrock_window_draw_rock width height 1 ∧
          petrock_window_draw_rock width height (petrock_window_get_mood_ratio b)
            = petrock_window_draw_rock width height 1) := by
  have hm := get_mood_ratio_mono a b hab
  refine ⟨rfl, rfl, rfl, ⟨?_, ?_, ?_, ?_, ?_⟩, ?_⟩
  · linarith
  · linarith
  · linarith
  · linarith
  · linarith
  · intro h12
    rw [get_mood_ratio_saturated a h12, get_mood_ratio_saturated b (le_trans h12 hab)]
    exact ⟨rfl, rfl⟩

/-- C9 between three and twenty compliments: the red channel of the fill does not
decrease. -/
theorem visual_parameters_affine_witness :
    0.45 + 0.2 * petrock_window_get_mood_ratio (clicks 3 (petrock_window_init template0))
      ≤ 0.45 + 0.2 * petrock_window_get_mood_ratio (clicks 20 (petrock_window_init template0)) :=
  (visual_parameters_affine 220 220 0 (clicks 3 (petrock_window_init template0))
    (clicks 20 (petrock_window_init template0))
    (by rw [clicks_compliment_count, clicks_compliment_count]; decide)).2.2.2.1.1

/-- C10. For a mood ratio between 0 and 1, every colour and alpha component of
every call `petrock_window_draw_rock` makes lies between 0 and 1; the calls
include the background stop `0.94 - 0.1 m`, the outline, the facets and the
sparkle alpha `0.6 + 0.3 m`. This covers the mood ratio of every window. At a
size of at least 220 by 220 the floors of 20 do not bind: `rock_width` is
`width - 48` and `rock_height` is `0.45 * height`. -/
theorem colours_within_unit_range (width height : Int) (m : ℚ) (hm0 : 0 ≤ m) (hm1 : m ≤ 1) :
    (∀ op ∈ petrock_window_draw_rock width height m, ∀ c ∈ op.colours, 0 ≤ c ∧ c ≤ 1) ∧
      (petrock_window_draw_rock width height m)[2]?
        = some (CairoOp.pattern_add_color_stop_rgb 1.0 (0.94 - 0.1 * m) 0.93 0.96) ∧
      (petrock_window_draw_rock width height m)[25]?
        = some (CairoOp.set_source_rgba (0.45 + 0.2 * m - 0.17) (0.44 + 0.15 * m - 0.18)
            (0.48 + 0.1 * m - 0.14) 1.0) ∧
      (petrock_window_draw_rock width height m)[40]?
        = some (CairoOp.set_source_rgba (0.45 + 0.2 * m - 0.08) (0.44 + 0.15 * m - 0.08)
            (0.48 + 0.1 * m - 0.05) 0.6) ∧
      (petrock_window_draw_rock width height m)[68]?
        = some (CairoOp.set_source_rgba 1.0 0.95 0.75 (0.6 + 0.3 * m)) ∧
      (∀ self : PetrockWindow,
        ∀ op ∈ petrock_window_draw_rock width height (petrock_window_get_mood_ratio self),
          ∀ c ∈ op.colours, 0 ≤ c ∧ c ≤ 1) ∧
      (220 ≤ width → 220 ≤ height →
        MAX ((width : ℚ) - 24.0 * 2.0) 20.0 = (width : ℚ) - 48 ∧
        MAX ((height : ℚ) * 0.45) 20.0 = 0.45 * (height : ℚ) ∧
        (petrock_window_draw_rock width height m)[15]?
          = some (CairoOp.scale (((width : ℚ) - 48) / 2.0) (0.45 * (height : ℚ) / 2.0))) := by
  refine ⟨draw_rock_colours_unit width height m hm0 hm1, rfl, rfl, rfl, rfl, ?_, ?_⟩
  · intro self
    exact draw_rock_colours_unit width height _ (get_mood_ratio_nonneg self)
      (get_mood_ratio_le_one self)
  · intro hw hh
    refine ⟨MAX_rock_width width hw, MAX_rock_height height hh, ?_⟩
    have h15 : (petrock_window_draw_rock width height m)[15]?
        = some (CairoOp.scale (MAX ((width : ℚ) - 24.0 * 2.0) 20.0 / 2.0)
            (MAX ((height : ℚ) * 0.45) 20.0 / 2.0)) := rfl
    rw [h15, MAX_rock_width width hw, MAX_rock_height height hh]

/-- C10 at the smallest render, 220 by 220, with the mood ratio of one compliment:
the fill is within range and the rock is 172 wide and 99 high. -/
theorem colours_within_unit_range_witness :
    (∀ op ∈ petrock_window_draw_rock 220 220 (1 / 12), ∀ c ∈ op.colours, 0 ≤ c ∧ c ≤ 1) ∧
      (petrock_window_draw_rock 220 220 (1 / 12))[15]?
        = some (CairoOp.scale ((((220 : Int) : ℚ) - 48) / 2.0)
            (0.45 * ((220 : Int) : ℚ) / 2.0)) :=
  ⟨(colours_within_unit_range 220 220 (1 / 12) (by norm_num) (by norm_num)).1,
    ((colours_within_unit_range 220 220 (1 / 12) (by norm_num) (by norm_num)).2.2.2.2.2.2
      (by decide) (by decide)).2.2⟩

end Petrock
